import Mathlib

/-!
Shallow embedding of the codingpa-ws/rtmp server core: the chunk handler
(src/unnamed/part_000) and the session command handlers (src/session.go,
src/broadcaster.go).  Byte streams are lists of naturals below 256, Go
uint32 arithmetic is modelled with explicit reduction modulo 2^32, and
fallible reads (io.ReadFull / bufio.ReadByte errors, nil-pointer panics)
return Option.
-/

namespace RTMP

/-- Modulus of Go uint32 arithmetic. -/
def u32 : Nat := 4294967296

/-- Chunk type constant ChunkType0 (src/unnamed/part_000). -/
def ChunkType0 : Nat := 0

/-- Chunk type constant ChunkType1. -/
def ChunkType1 : Nat := 1

/-- Chunk type constant ChunkType2. -/
def ChunkType2 : Nat := 2

/-- Chunk type constant ChunkType3. -/
def ChunkType3 : Nat := 3

/-- Peer-bandwidth limit constant LimitHard. -/
def LimitHard : Nat := 0

/-- Peer-bandwidth limit constant LimitSoft. -/
def LimitSoft : Nat := 1

/-- Peer-bandwidth limit constant LimitDynamic. -/
def LimitDynamic : Nat := 2

/-- Default maximum chunk size (128 bytes) before any Set-Chunk-Size. -/
def DefaultMaximumChunkSize : Nat := 128

/-- Chunk basic header: chunk type (FMT) and chunk stream id. -/
structure ChunkBasicHeader where
  FMT : Nat
  ChunkStreamID : Nat
deriving DecidableEq

/-- Chunk message header: timestamp (absolute for type 0, delta otherwise),
message length, message type id and message stream id. -/
structure ChunkMessageHeader where
  Timestamp : Nat
  MessageLength : Nat
  MessageTypeID : Nat
  MessageStreamID : Nat
deriving DecidableEq

/-- A fully resolved chunk header, including the extended timestamp and the
running elapsed time of its chunk stream. -/
structure ChunkHeader where
  BasicHeader : ChunkBasicHeader
  MessageHeader : ChunkMessageHeader
  ExtendedTimestamp : Nat
  ElapsedTime : Nat
deriving DecidableEq

/-- State of the ChunkHandler.  The socket read side is the byte list
`input`; `acks` records the sequence numbers of Acknowledgement messages
written to the socket (generateAckMessage calls).  `prevChunkHeader` is the
Go map from chunk stream id to the previous header on that id: a missing
key is `none` (in Go the zero-value ChunkHeader with nil inner pointers). -/
structure ChunkHandler where
  input : List Nat
  prevChunkHeader : Nat → Option ChunkHeader
  inChunkSize : Nat
  outChunkSize : Nat
  windowAckSize : Nat
  bytesReceived : Nat
  outBandwidth : Nat
  limit : Nat
  ackSent : Bool
  acks : List Nat

/-- NewChunkHandler: Go zero values for the fields the constructor leaves
unset (windowAckSize, bytesReceived, outBandwidth, limit). -/
def NewChunkHandler (input : List Nat) : ChunkHandler :=
  { input := input
    prevChunkHeader := fun _ => none
    inChunkSize := DefaultMaximumChunkSize
    outChunkSize := DefaultMaximumChunkSize
    windowAckSize := 0
    bytesReceived := 0
    outBandwidth := 0
    limit := 0
    ackSent := false
    acks := [] }

/-- bufio.Reader.ReadByte: one byte, or error at end of input. -/
def readByte (h : ChunkHandler) : Option (Nat × ChunkHandler) :=
  match h.input with
  | [] => none
  | b :: rest => some (b, { h with input := rest })

/-- io.ReadFull of n bytes: exactly n bytes or an error. -/
def readFull (h : ChunkHandler) (n : Nat) : Option (List Nat × ChunkHandler) :=
  if n ≤ h.input.length then
    some (h.input.take n, { h with input := h.input.drop n })
  else none

/-- Big-endian 16-bit value. -/
def be16 (b0 b1 : Nat) : Nat := b0 * 256 + b1

/-- Big-endian 24-bit value (3-byte timestamp / message length fields). -/
def be24 (b0 b1 b2 : Nat) : Nat := b0 * 65536 + b1 * 256 + b2

/-- Big-endian 32-bit value (extended timestamp). -/
def be32 (b0 b1 b2 b3 : Nat) : Nat := b0 * 16777216 + b1 * 65536 + b2 * 256 + b3

/-- Little-endian 32-bit value (message stream id, the one LE wire field). -/
def le32 (b0 b1 b2 b3 : Nat) : Nat := b0 + b1 * 256 + b2 * 65536 + b3 * 16777216

/-- readBasicHeader: FMT is the top 2 bits of the first byte, csid the low
6 bits; 0 and 1 escape to the 2- and 3-byte forms (value + 64).  The
3-byte form also bumps bytesReceived by 2, exactly as the source does. -/
def readBasicHeader (h : ChunkHandler) : Option (ChunkBasicHeader × ChunkHandler) :=
  match readByte h with
  | none => none
  | some (b, h1) =>
    let fmt := b / 64
    let csid := b % 64
    if csid = 0 then
      match readByte h1 with
      | none => none
      | some (id, h2) => some ({ FMT := fmt, ChunkStreamID := id + 64 }, h2)
    else if csid = 1 then
      match readFull h1 2 with
      | none => none
      | some (id, h2) =>
        some ({ FMT := fmt, ChunkStreamID := be16 (id.getD 0 0) (id.getD 1 0) + 64 },
              { h2 with bytesReceived := (h2.bytesReceived + 2) % u32 })
    else
      some ({ FMT := fmt, ChunkStreamID := csid }, h1)

/-- readMessageHeader.  Types 1 and 2 inherit the missing fields from the
previous header on the same csid; type 3 inherits message length, type id
and stream id and leaves the timestamp at its zero value (the source's
delta-inheritance block is commented out).  An access to the previous
header when none exists on that csid is a nil-pointer dereference in Go,
modelled as `none`. -/
def readMessageHeader (bh : ChunkBasicHeader) (h : ChunkHandler) :
    Option (ChunkMessageHeader × ChunkHandler) :=
  let csid := bh.ChunkStreamID
  if bh.FMT = ChunkType0 then
    match readFull h 11 with
    | none => none
    | some (m, h1) =>
      some ({ Timestamp := be24 (m.getD 0 0) (m.getD 1 0) (m.getD 2 0)
              MessageLength := be24 (m.getD 3 0) (m.getD 4 0) (m.getD 5 0)
              MessageTypeID := m.getD 6 0
              MessageStreamID := le32 (m.getD 7 0) (m.getD 8 0) (m.getD 9 0) (m.getD 10 0) }, h1)
  else if bh.FMT = ChunkType1 then
    match readFull h 7 with
    | none => none
    | some (m, h1) =>
      match h1.prevChunkHeader csid with
      | none => none
      | some prev =>
        some ({ Timestamp := be24 (m.getD 0 0) (m.getD 1 0) (m.getD 2 0)
                MessageLength := be24 (m.getD 3 0) (m.getD 4 0) (m.getD 5 0)
                MessageTypeID := m.getD 6 0
                MessageStreamID := prev.MessageHeader.MessageStreamID }, h1)
  else if bh.FMT = ChunkType2 then
    match readFull h 3 with
    | none => none
    | some (m, h1) =>
      match h1.prevChunkHeader csid with
      | none => none
      | some prev =>
        some ({ Timestamp := be24 (m.getD 0 0) (m.getD 1 0) (m.getD 2 0)
                MessageLength := prev.MessageHeader.MessageLength
                MessageTypeID := prev.MessageHeader.MessageTypeID
                MessageStreamID := prev.MessageHeader.MessageStreamID }, h1)
  else if bh.FMT = ChunkType3 then
    match h.prevChunkHeader csid with
    | none => none
    | some prev =>
      some ({ Timestamp := 0
              MessageLength := prev.MessageHeader.MessageLength
              MessageTypeID := prev.MessageHeader.MessageTypeID
              MessageStreamID := prev.MessageHeader.MessageStreamID }, h)
  else none

/-- readExtendedTimestamp: 4 bytes, big endian. -/
def readExtendedTimestamp (h : ChunkHandler) : Option (Nat × ChunkHandler) :=
  match readFull h 4 with
  | none => none
  | some (m, h1) => some (be32 (m.getD 0 0) (m.getD 1 0) (m.getD 2 0) (m.getD 3 0), h1)

/-- ReadChunkHeader: basic header, message header, optional extended
timestamp (when the 24-bit field is 0xFFFFFF), then the elapsed-time
update: absolute for type 0, previous elapsed plus delta otherwise; the
result is stored as the previous header of its csid. -/
def ReadChunkHeader (h : ChunkHandler) : Option (ChunkHeader × ChunkHandler) :=
  match readBasicHeader h with
  | none => none
  | some (bh, h1) =>
    match readMessageHeader bh h1 with
    | none => none
    | some (mh, h2) =>
      let extStep : Option (Nat × Bool × ChunkHandler) :=
        if mh.Timestamp = 16777215 then
          match readExtendedTimestamp h2 with
          | none => none
          | some (ext, h3) => some (ext, true, h3)
        else some (0, false, h2)
      match extStep with
      | none => none
      | some (ext, isExt, h3) =>
        let csid := bh.ChunkStreamID
        let prevElapsed : Nat :=
          match h3.prevChunkHeader csid with
          | none => 0
          | some prev => prev.ElapsedTime
        let elapsed : Nat :=
          if bh.FMT = ChunkType0 then
            if isExt then ext else mh.Timestamp
          else
            if isExt then (prevElapsed + ext) % u32
            else (prevElapsed + mh.Timestamp) % u32
        let ch : ChunkHeader :=
          { BasicHeader := bh, MessageHeader := mh, ExtendedTimestamp := ext,
            ElapsedTime := elapsed }
        some (ch, { h3 with
                     prevChunkHeader := fun k =>
                       if k = csid then some ch else h3.prevChunkHeader k })

/-- Loop body of assembleMessage.  The source loops while bytesRead is
below messageLength, reading the next chunk header (its csid is ignored)
and appending the chunk payload to the single message buffer.  The fuel
argument bounds the iteration count; it is passed large enough that it is
never exhausted when the chunk size is positive. -/
def assembleLoop : Nat → List Nat → Nat → Nat → ChunkHandler → Option (List Nat × ChunkHandler)
  | 0, _, _, _, _ => none
  | Nat.succ fuel, payload, bytesRead, messageLength, h =>
    if bytesRead < messageLength then
      match ReadChunkHeader h with
      | none => none
      | some (_, h1) =>
        if bytesRead + h1.inChunkSize < messageLength then
          match readFull h1 h1.inChunkSize with
          | none => none
          | some (bs, h2) =>
            assembleLoop fuel (payload ++ bs) (bytesRead + h1.inChunkSize) messageLength h2
        else
          match readFull h1 (messageLength - bytesRead) with
          | none => none
          | some (bs, h2) =>
            assembleLoop fuel (payload ++ bs) (bytesRead + (messageLength - bytesRead))
              messageLength h2
    else some (payload, h)

/-- assembleMessage: reads the first inChunkSize payload bytes that follow
the already-read first header, then loops over continuation chunks until
messageLength bytes have been gathered into one buffer. -/
def assembleMessage (h : ChunkHandler) (messageLength : Nat) :
    Option (List Nat × ChunkHandler) :=
  match readFull h h.inChunkSize with
  | none => none
  | some (bs, h1) => assembleLoop (messageLength + 1) bs h.inChunkSize messageLength h1

/-- ReadChunkData: single read when the message fits in one chunk,
otherwise multi-chunk reassembly via assembleMessage. -/
def ReadChunkData (h : ChunkHandler) (header : ChunkHeader) :
    Option (List Nat × ChunkHandler) :=
  let messageLength := header.MessageHeader.MessageLength
  if h.inChunkSize < messageLength then
    assembleMessage h messageLength
  else
    readFull h messageLength

/-- sendAck: writes generateAckMessage(bytesReceived) to the socket, then
resets the counter and marks ackSent. -/
def sendAck (h : ChunkHandler) : ChunkHandler :=
  { h with acks := h.acks ++ [h.bytesReceived], bytesReceived := 0, ackSent := true }

/-- updateBytesReceived: add the count (uint32 wrap) and fire sendAck when
the window-acknowledgement size is reached or exceeded. -/
def updateBytesReceived (h : ChunkHandler) (i : Nat) : ChunkHandler :=
  let h1 := { h with bytesReceived := (h.bytesReceived + i) % u32 }
  if h1.windowAckSize ≤ h1.bytesReceived then sendAck h1 else h1

/-- SetChunkSize (inbound direction). -/
def SetChunkSize (h : ChunkHandler) (size : Nat) : ChunkHandler :=
  { h with inChunkSize := size }

/-- SetWindowAckSize: if no acknowledgement was ever sent, send one first,
then store the new window size. -/
def SetWindowAckSize (h : ChunkHandler) (size : Nat) : ChunkHandler :=
  let h1 := if h.ackSent then h else sendAck h
  { h1 with windowAckSize := size }

/-- SetBandwidth: the body of the source function is entirely commented
out, so the handler state is returned unchanged. -/
def SetBandwidth (h : ChunkHandler) (size : Nat) (limitType : Nat) : ChunkHandler :=
  h

/-- Externally visible actions of a session, in program order: socket sends
performed through the message manager, plus the broadcaster registration
call made at the end of onPlay. -/
inductive Act where
  | windowAckSize (size : Nat)
  | setPeerBandwidth (size : Nat) (limitType : Nat)
  | streamBegin (streamID : Nat)
  | setChunkSizeMsg (size : Nat)
  | connectSuccess (csID : Nat)
  | statusMessage (level : String) (code : String) (description : String)
  | videoMsg (payload : List Nat) (timestamp : Nat)
  | audioMsg (payload : List Nat) (timestamp : Nat)
  | registerSubscriberAct (streamKey : String) (sessionID : String)
deriving DecidableEq

/-- Session state (src/session.go).  The Go callback fields OnAudio,
OnVideo and OnMetadata are nilable function pointers; only their nil-ness
matters to the control flow, so they are modelled as presence flags. -/
structure SessionState where
  id : String
  app : String
  flashVer : String
  swfUrl : String
  tcUrl : String
  amfType : String
  streamKey : String
  publishingType : String
  isPublisher : Bool
  isPlayer : Bool
  isClient : Bool
  active : Bool
  hasAudioCallback : Bool
  hasVideoCallback : Bool
  hasMetadataCallback : Bool
  output : List Act

/-- A publisher entry of the broadcaster registry.  Modelled from the
spec: the ContextStore implementation (InMemoryContext) is not under src;
section 3 gives a publisher entry its subscriber set (session ids) and the
cached AAC/AVC sequence headers. -/
structure PublisherEntry where
  subscribers : List String
  aacSequenceHeader : Option (List Nat)
  avcSequenceHeader : Option (List Nat)
deriving DecidableEq

/-- Broadcaster state (src/broadcaster.go): the configured app name, the
publisher registry (modelled from the spec, see PublisherEntry) and the
optional session guard; Go holds a nilable SessionGuard interface value,
modelled as a presence flag plus the Check function. -/
structure BroadcasterState where
  appName : String
  publishers : List (String × PublisherEntry)
  guardPresent : Bool
  guardCheck : SessionState → Bool

/-- Modelled from the spec: ContextStore.RegisterPublisher is not under
src; section 4.5: fails with AlreadyExists if a live publisher holds the
key, otherwise creates an empty entry. -/
def RegisterPublisher (key : String) (b : BroadcasterState) :
    Except String BroadcasterState :=
  if (List.lookup key b.publishers).isSome then Except.error "AlreadyExists"
  else Except.ok
    { b with publishers :=
        (key, { subscribers := [], aacSequenceHeader := none,
                avcSequenceHeader := none }) :: b.publishers }

/-- Replace the entry of a key in the registry, leaving other keys as they
are. -/
def updateEntry (key : String) (f : PublisherEntry → PublisherEntry) :
    List (String × PublisherEntry) → List (String × PublisherEntry)
  | [] => []
  | (k, e) :: rest =>
    if k = key then (k, f e) :: rest else (k, e) :: updateEntry key f rest

/-- Modelled from the spec: ContextStore.RegisterSubscriber is not under
src; section 4.5: fails with NotFound if no publisher entry exists, and is
idempotent per session id (a retry with the same id replaces the prior
reference). -/
def RegisterSubscriber (key : String) (subID : String) (b : BroadcasterState) :
    Except String BroadcasterState :=
  match List.lookup key b.publishers with
  | none => Except.error "NotFound"
  | some _ =>
    Except.ok
      { b with publishers :=
          (updateEntry key
            (fun e =>
              { e with subscribers :=
                  subID :: e.subscribers.filter (fun x => x != subID) })
            b.publishers) }

/-- Modelled from the spec: ContextStore.StreamExists is not under src; a
stream exists when a publisher entry holds the key. -/
def StreamExists (key : String) (b : BroadcasterState) : Bool :=
  (List.lookup key b.publishers).isSome

/-- Modelled from the spec: cached AVC sequence header lookup (nil when
the key is unknown or nothing was cached). -/
def GetAvcSequenceHeaderForPublisher (key : String) (b : BroadcasterState) :
    Option (List Nat) :=
  match List.lookup key b.publishers with
  | none => none
  | some e => e.avcSequenceHeader

/-- Modelled from the spec: cached AAC sequence header lookup. -/
def GetAacSequenceHeaderForPublisher (key : String) (b : BroadcasterState) :
    Option (List Nat) :=
  match List.lookup key b.publishers with
  | none => none
  | some e => e.aacSequenceHeader

/-- sendStatusMessage: an onStatus command with the given level, code and
description, recorded on the session's output trace. -/
def sendStatusMessage (s : SessionState) (level code description : String) :
    SessionState :=
  { s with output := s.output ++ [Act.statusMessage level code description] }

/-- SendEndOfStream (src/session.go). -/
def SendEndOfStream (s : SessionState) : SessionState :=
  sendStatusMessage s "status" "NetStream.Play.Stop" "Stopped playing stream."

/-- strings.EqualFold, restricted to the simple case folding the metadata
keys use. -/
def eqFold (a b : String) : Bool := a.toLower == b.toLower

/-- amf.Metadata.Get (src/amf/metadata.go): case-insensitive key lookup.
Metadata values are restricted to strings, the only kind the session
reads. -/
def metaGet (m : List (String × String)) (key : String) : Option String :=
  match m with
  | [] => none
  | (k, v) :: rest => if eqFold k key then some v else metaGet rest key

/-- amf.Metadata.GetString as used by storeMetadata: the error branch
leaves the empty string in the assigned field. -/
def GetStringD (m : List (String × String)) (key : String) : String :=
  (metaGet m key).getD ""

/-- storeMetadata (src/session.go). -/
def storeMetadata (s : SessionState) (m : List (String × String)) : SessionState :=
  { s with
    app := GetStringD m "app"
    flashVer := GetStringD m "flashVer"
    swfUrl := GetStringD m "swfUrl"
    tcUrl := GetStringD m "tcUrl"
    amfType := GetStringD m "type" }

/-- constants.DefaultClientWindowSize. -/
def DefaultClientWindowSize : Nat := 2500000

/-- constants.DefaultPublishStream. -/
def DefaultPublishStream : Nat := 0

/-- constants.DefaultChunkSize. -/
def DefaultChunkSize : Nat := 4096

/-- onConnect (src/session.go): store the command-object metadata; if the
app matches the broadcaster's configured app name, emit the connect
control sequence, otherwise log and deactivate the session.  Transaction
ids are opaque; the handler never reads its transactionId argument. -/
def onConnect (s : SessionState) (b : BroadcasterState) (csID : Nat)
    (transactionId : Nat) (data : List (String × String)) : SessionState :=
  let s1 := storeMetadata s data
  if s1.app = b.appName then
    { s1 with output := s1.output ++
        [Act.windowAckSize DefaultClientWindowSize,
         Act.setPeerBandwidth DefaultClientWindowSize LimitDynamic,
         Act.streamBegin DefaultPublishStream,
         Act.setChunkSizeMsg DefaultChunkSize,
         Act.connectSuccess csID] }
  else
    { s1 with active := false }

/-- onPublish (src/session.go): store the stream key and publishing type;
if a session guard is configured and rejects the session, send end of
stream and deactivate; otherwise send NetStream.Publish.Start, mark the
session a publisher and register it, discarding the registration error. -/
def onPublish (s : SessionState) (b : BroadcasterState) (transactionId : Nat)
    (streamKey publishingType : String) : SessionState × BroadcasterState :=
  let s1 := { s with streamKey := streamKey, publishingType := publishingType }
  if b.guardPresent && ! b.guardCheck s1 then
    ({ SendEndOfStream s1 with active := false }, b)
  else
    let s2 := { sendStatusMessage s1 "status" "NetStream.Publish.Start"
                  "Publishing live_user_<x>" with isPublisher := true }
    let b2 := match RegisterPublisher streamKey b with
      | Except.ok nb => nb
      | Except.error _ => b
    (s2, b2)

/-- onPlay (src/session.go): store the stream key; if the stream does not
exist, send the StreamNotFound error status and return; otherwise send
Play.Start, push the cached AVC then AAC sequence headers at timestamp 0
when present, mark the session a player and register it as subscriber
(the registration error is ignored, a TODO in the source). -/
def onPlay (s : SessionState) (b : BroadcasterState) (streamKey : String)
    (startTime : Nat) : SessionState × BroadcasterState :=
  let s1 := { s with streamKey := streamKey }
  if ! StreamExists streamKey b then
    (sendStatusMessage s1 "error" "NetStream.Play.StreamNotFound" "not_found", b)
  else
    let s2 := sendStatusMessage s1 "status" "NetStream.Play.Start"
                "Playing stream for live_user_<x>"
    let s3 := match GetAvcSequenceHeaderForPublisher streamKey b with
      | some p => { s2 with output := s2.output ++ [Act.videoMsg p 0] }
      | none => s2
    let s4 := match GetAacSequenceHeaderForPublisher streamKey b with
      | some p => { s3 with output := s3.output ++ [Act.audioMsg p 0] }
      | none => s3
    let s5 := { s4 with isPlayer := true,
                        output := s4.output ++ [Act.registerSubscriberAct streamKey s4.id] }
    let b2 := match RegisterSubscriber streamKey s4.id b with
      | Except.ok nb => nb
      | Except.error _ => b
    (s5, b2)

/-- Audio formats named by the session code (the audio package constants
are not under src; only AAC is compared against). -/
inductive AudioFormat where
  | AAC
  | MP3
  | other
deriving DecidableEq

/-- Video codecs named by the session code. -/
inductive VideoCodec where
  | H264
  | H263
  | other
deriving DecidableEq

/-- Video frame types named by the session code. -/
inductive FrameType where
  | keyFrame
  | interFrame
  | other
deriving DecidableEq

/-- audio.AACSequenceHeader: packet-type byte value 0. -/
def AACSequenceHeader : Nat := 0

/-- video.AVCSequenceHeader: packet-type byte value 0. -/
def AVCSequenceHeader : Nat := 0

/-- Calls a media message handler makes: caching of sequence headers,
broadcast fan-out, or the client callback. -/
inductive BCall where
  | callback
  | setAac (key : String) (payload : List Nat)
  | setAvc (key : String) (payload : List Nat)
  | bAudio (key : String) (payload : List Nat) (timestamp : Nat)
  | bVideo (key : String) (payload : List Nat) (timestamp : Nat)
deriving DecidableEq

/-- onAudioMessage (src/session.go).  On a server-side session with AAC
format the code indexes payload[1] unconditionally; a payload shorter than
2 bytes is a Go index-out-of-range panic, modelled as `none`.  Otherwise
the list of calls made, in order. -/
def onAudioMessage (s : SessionState) (format : AudioFormat) (payload : List Nat)
    (timestamp : Nat) : Option (List BCall) :=
  if s.hasAudioCallback then some [BCall.callback]
  else if s.isClient then some []
  else if format = AudioFormat.AAC then
    match payload.get? 1 with
    | none => none
    | some b =>
      if b = AACSequenceHeader then
        some [BCall.setAac s.streamKey payload, BCall.bAudio s.streamKey payload timestamp]
      else
        some [BCall.bAudio s.streamKey payload timestamp]
  else some [BCall.bAudio s.streamKey payload timestamp]

/-- onVideoMessage (src/session.go), same structure as onAudioMessage with
the H.264 codec and the AVC packet-type byte. -/
def onVideoMessage (s : SessionState) (frameType : FrameType) (codec : VideoCodec)
    (payload : List Nat) (timestamp : Nat) : Option (List BCall) :=
  if s.hasVideoCallback then some [BCall.callback]
  else if s.isClient then some []
  else if codec = VideoCodec.H264 then
    match payload.get? 1 with
    | none => none
    | some b =>
      if b = AVCSequenceHeader then
        some [BCall.setAvc s.streamKey payload, BCall.bVideo s.streamKey payload timestamp]
      else
        some [BCall.bVideo s.streamKey payload timestamp]
  else some [BCall.bVideo s.streamKey payload timestamp]

/-! Concrete fixtures used by the claim theorems and witnesses. -/

/-- An interleaved wire trace: after Set-Chunk-Size 2, a 4-byte message on
csid 3 (type-0 header, first 2 payload bytes 10 11), then a complete
1-byte message on csid 4 (type-0 header, payload 99), then the csid-3
type-3 continuation chunk with the final payload bytes 12 13. -/
def interleaveWire : List Nat :=
  [3, 0, 0, 0, 0, 0, 4, 8, 1, 0, 0, 0,
   10, 11,
   4, 0, 0, 0, 0, 0, 1, 8, 1, 0, 0, 0,
   99,
   195,
   12, 13]

/-- Handler positioned at the start of the interleaved trace with
inChunkSize 2. -/
def interleaveHandler : ChunkHandler :=
  SetChunkSize (NewChunkHandler interleaveWire) 2

/-- Payload the read path reassembles for the csid-3 message of the
interleaved trace. -/
def interleaveResult : Option (List Nat) :=
  match ReadChunkHeader interleaveHandler with
  | none => none
  | some (ch, h1) =>
    match ReadChunkData h1 ch with
    | none => none
    | some (p, _) => some p

/-- A type-0 chunk on csid 3 with absolute timestamp 100, message length 1
and type id 8, its 1-byte payload, then a type-3 continuation header on
csid 3. -/
def type3Wire : List Nat :=
  [3, 0, 0, 100, 0, 0, 1, 8, 1, 0, 0, 0, 42, 195]

/-- The two headers the read path produces on the type-3 trace: the type-0
header and the type-3 header that follows it. -/
def type3Result : Option (ChunkHeader × ChunkHeader) :=
  match ReadChunkHeader (NewChunkHandler type3Wire) with
  | none => none
  | some (first, s1) =>
    match ReadChunkData s1 first with
    | none => none
    | some (_, s2) =>
      match ReadChunkHeader s2 with
      | none => none
      | some (second, _) => some (first, second)

/-! Claim theorems. -/

/-- Claim C2 (code_bug evaluation): on the interleaved trace the csid-3
message is reassembled as [10, 11, 99, 195] — the continuation bytes are
taken from the csid-4 chunk's payload and from the type-3 basic-header
byte, because assembleMessage accumulates into a single buffer instead of
one accumulator per chunk-stream-id.  The bytes published for the csid-3
message were [10, 11, 12, 13]. -/
theorem assembleMessage_interleave_bug :
    interleaveResult = some [10, 11, 99, 195]
    ∧ interleaveResult ≠ some [10, 11, 12, 13] := by
  constructor
  · rfl
  · decide

/-- Claim C3 (code_bug evaluation): after a type-0 chunk on csid 3 with
absolute timestamp 100, the following type-3 chunk's header carries
timestamp delta 0 — not the inherited 100 — and its elapsed time stays
100 instead of advancing to 200; length, type id and stream id are
inherited.  readMessageHeader's delta-inheritance block is commented out
in the source. -/
theorem readChunkHeader_type3_drops_delta :
    (type3Result.map (fun p =>
      (p.1.MessageHeader.Timestamp, p.1.ElapsedTime,
       p.2.BasicHeader.FMT, p.2.MessageHeader.Timestamp, p.2.ElapsedTime,
       p.2.MessageHeader.MessageLength, p.2.MessageHeader.MessageTypeID,
       p.2.MessageHeader.MessageStreamID)))
      = some (100, 100, 3, 0, 100, 1, 8, 1)
    ∧ (type3Result.map (fun p => p.2.ElapsedTime)) ≠ some 200 := by
  constructor
  · rfl
  · decide

/-- Claim C8: one call to updateBytesReceived emits exactly one
Acknowledgement — carrying the running count just reached — precisely when
the updated counter reaches or exceeds the window-acknowledgement size, in
which case the counter resets to 0 and ackSent becomes true; below the
threshold nothing is emitted and the counter keeps the updated value. -/
theorem updateBytesReceived_window_ack (h : ChunkHandler) (i : Nat) :
    (updateBytesReceived h i).acks =
      (if h.windowAckSize ≤ (h.bytesReceived + i) % u32 then
        h.acks ++ [(h.bytesReceived + i) % u32]
      else h.acks)
    ∧ (updateBytesReceived h i).bytesReceived =
      (if h.windowAckSize ≤ (h.bytesReceived + i) % u32 then 0
       else (h.bytesReceived + i) % u32)
    ∧ (updateBytesReceived h i).ackSent =
      (if h.windowAckSize ≤ (h.bytesReceived + i) % u32 then true
       else h.ackSent) := by
  unfold updateBytesReceived sendAck
  by_cases hle : h.windowAckSize ≤ (h.bytesReceived + i) % u32 <;> simp [hle]

/-- Claim C9 (counterexample): receiving Set-Peer-Bandwidth with size 999
and limit type 1 leaves outBandwidth and limit untouched — the claim that
they are updated to the carried values fails. -/
theorem setBandwidth_counterexample :
    (SetBandwidth (NewChunkHandler []) 999 1).outBandwidth ≠ 999
    ∧ (SetBandwidth (NewChunkHandler []) 999 1).limit ≠ 1 := by
  decide

/-- Claim C9 (amended): SetBandwidth is a no-op — the whole handler state,
including outBandwidth and limit_type, is returned unchanged, so output
behaviour is trivially unchanged as well. -/
theorem setBandwidth_noop (h : ChunkHandler) (size limitType : Nat) :
    SetBandwidth h size limitType = h := rfl

/-- A fresh server-side session, as NewSession builds it. -/
def serverSession : SessionState :=
  { id := "session-1", app := "", flashVer := "", swfUrl := "", tcUrl := "",
    amfType := "", streamKey := "", publishingType := "", isPublisher := false,
    isPlayer := false, isClient := false, active := true,
    hasAudioCallback := false, hasVideoCallback := false,
    hasMetadataCallback := false, output := [] }

/-- A publisher entry with no subscribers and no cached headers. -/
def demoEntry : PublisherEntry :=
  { subscribers := [], aacSequenceHeader := none, avcSequenceHeader := none }

/-- A broadcaster that already has a live publisher for key "live" and no
session guard. -/
def demoBroadcaster : BroadcasterState :=
  { appName := "app", publishers := [("live", demoEntry)],
    guardPresent := false, guardCheck := fun _ => true }

/-- A broadcaster with no publishers and no session guard. -/
def emptyBroadcaster : BroadcasterState :=
  { appName := "app", publishers := [],
    guardPresent := false, guardCheck := fun _ => true }

/-- A broadcaster whose session guard rejects every session. -/
def guardBroadcaster : BroadcasterState :=
  { appName := "app", publishers := [],
    guardPresent := true, guardCheck := fun _ => false }

/-- A publisher entry for key "abc" with both sequence headers cached. -/
def playEntry : PublisherEntry :=
  { subscribers := [], aacSequenceHeader := some [174, 0],
    avcSequenceHeader := some [23, 0] }

/-- A broadcaster carrying the "abc" publisher entry with cached
sequence headers. -/
def playBroadcaster : BroadcasterState :=
  { appName := "app", publishers := [("abc", playEntry)],
    guardPresent := false, guardCheck := fun _ => true }

/-- Claim C1 (counterexample): with "live" already held by a publisher and
no guard configured, a second session's publish for "live" sends
NetStream.Publish.Start at level status — no error-level onStatus — stays
active and is marked publisher; only the broadcaster registry (first
publisher's entry) is left unaffected. -/
theorem onPublish_duplicate_counterexample :
    (onPublish serverSession demoBroadcaster 0 "live" "live").1.output =
      [Act.statusMessage "status" "NetStream.Publish.Start" "Publishing live_user_<x>"]
    ∧ (onPublish serverSession demoBroadcaster 0 "live" "live").1.active = true
    ∧ (onPublish serverSession demoBroadcaster 0 "live" "live").1.isPublisher = true
    ∧ (onPublish serverSession demoBroadcaster 0 "live" "live").2.publishers =
        [("live", demoEntry)] :=
  ⟨rfl, rfl, rfl, rfl⟩

/-- Claim C1 (amended): when a publisher already holds the stream key and
no session guard is configured, a second publish leaves the broadcaster
unchanged (the AlreadyExists failure of registration is discarded, so the
first publisher is unaffected) while the second session still sends
NetStream.Publish.Start at level status, is marked publisher and keeps its
activity flag — it is not terminated and receives no error-level
onStatus. -/
theorem onPublish_duplicate_ignored (s : SessionState) (b : BroadcasterState)
    (tid : Nat) (key ptype : String)
    (hdup : (List.lookup key b.publishers).isSome = true)
    (hguard : b.guardPresent = false) :
    (onPublish s b tid key ptype).2 = b
    ∧ (onPublish s b tid key ptype).1.active = s.active
    ∧ (onPublish s b tid key ptype).1.isPublisher = true
    ∧ (onPublish s b tid key ptype).1.output =
        s.output ++ [Act.statusMessage "status" "NetStream.Publish.Start"
          "Publishing live_user_<x>"] := by
  unfold onPublish RegisterPublisher sendStatusMessage
  simp [hguard, hdup]

/-- Witness for the amended C1 theorem at the concrete duplicate-publish
input. -/
theorem onPublish_duplicate_ignored_witness :
    (onPublish serverSession demoBroadcaster 0 "live" "live").2 = demoBroadcaster
    ∧ (onPublish serverSession demoBroadcaster 0 "live" "live").1.active =
        serverSession.active
    ∧ (onPublish serverSession demoBroadcaster 0 "live" "live").1.isPublisher = true
    ∧ (onPublish serverSession demoBroadcaster 0 "live" "live").1.output =
        serverSession.output ++ [Act.statusMessage "status" "NetStream.Publish.Start"
          "Publishing live_user_<x>"] :=
  onPublish_duplicate_ignored serverSession demoBroadcaster 0 "live" "live" rfl rfl

/-- Claim C4: when the connect command's app equals the broadcaster's
configured app name, the session emits exactly Window-Ack-Size,
Set-Peer-Bandwidth with limit dynamic, User-Control StreamBegin(0),
Set-Chunk-Size to the configured value, then the connect _result, in this
order, and stays active; otherwise nothing is sent and the session is
deactivated. -/
theorem onConnect_control_sequence (s : SessionState) (b : BroadcasterState)
    (csID tid : Nat) (data : List (String × String)) :
    (onConnect s b csID tid data).output =
      (if GetStringD data "app" = b.appName then
        s.output ++
          [Act.windowAckSize DefaultClientWindowSize,
           Act.setPeerBandwidth DefaultClientWindowSize LimitDynamic,
           Act.streamBegin DefaultPublishStream,
           Act.setChunkSizeMsg DefaultChunkSize,
           Act.connectSuccess csID]
      else s.output)
    ∧ (onConnect s b csID tid data).active =
      (if GetStringD data "app" = b.appName then s.active else false) := by
  unfold onConnect storeMetadata
  by_cases hm : GetStringD data "app" = b.appName <;> simp [hm]

/-- Claim C5: when the broadcaster has a session guard whose Check rejects
the session (with the publish stream key and type already stored), publish
sends the NetStream.Play.Stop status message and terminates the session,
without marking it publisher and without touching the broadcaster. -/
theorem onPublish_guard_denied (s : SessionState) (b : BroadcasterState)
    (tid : Nat) (key ptype : String) (hg : b.guardPresent = true)
    (hc : b.guardCheck { s with streamKey := key, publishingType := ptype } = false) :
    (onPublish s b tid key ptype).1.active = false
    ∧ (onPublish s b tid key ptype).1.output =
        s.output ++ [Act.statusMessage "status" "NetStream.Play.Stop"
          "Stopped playing stream."]
    ∧ (onPublish s b tid key ptype).1.isPublisher = s.isPublisher
    ∧ (onPublish s b tid key ptype).2 = b := by
  unfold onPublish SendEndOfStream sendStatusMessage
  simp [hg, hc]

/-- Witness for the C5 theorem under an always-rejecting guard. -/
theorem onPublish_guard_denied_witness :
    (onPublish serverSession guardBroadcaster 0 "live" "live").1.active = false
    ∧ (onPublish serverSession guardBroadcaster 0 "live" "live").1.output =
        serverSession.output ++ [Act.statusMessage "status" "NetStream.Play.Stop"
          "Stopped playing stream."]
    ∧ (onPublish serverSession guardBroadcaster 0 "live" "live").1.isPublisher =
        serverSession.isPublisher
    ∧ (onPublish serverSession guardBroadcaster 0 "live" "live").2 =
        guardBroadcaster :=
  onPublish_guard_denied serverSession guardBroadcaster 0 "live" "live" rfl rfl

/-- Claim C6: a play for a stream key with no publisher entry sends the
error-level NetStream.Play.StreamNotFound status and nothing else; the
session keeps its activity flag, is not marked player, and the broadcaster
is unchanged — no subscriber registration — so a further play attempt is
possible. -/
theorem onPlay_stream_not_found (s : SessionState) (b : BroadcasterState)
    (key : String) (t : Nat) (h : StreamExists key b = false) :
    (onPlay s b key t).1.output =
      s.output ++ [Act.statusMessage "error" "NetStream.Play.StreamNotFound" "not_found"]
    ∧ (onPlay s b key t).1.active = s.active
    ∧ (onPlay s b key t).1.isPlayer = s.isPlayer
    ∧ (onPlay s b key t).2 = b := by
  unfold onPlay sendStatusMessage
  simp [h]

/-- Witness for the C6 theorem: playing the unknown key "missing". -/
theorem onPlay_stream_not_found_witness :
    (onPlay serverSession emptyBroadcaster "missing" 0).1.output =
      serverSession.output ++
        [Act.statusMessage "error" "NetStream.Play.StreamNotFound" "not_found"]
    ∧ (onPlay serverSession emptyBroadcaster "missing" 0).1.active =
        serverSession.active
    ∧ (onPlay serverSession emptyBroadcaster "missing" 0).1.isPlayer =
        serverSession.isPlayer
    ∧ (onPlay serverSession emptyBroadcaster "missing" 0).2 = emptyBroadcaster :=
  onPlay_stream_not_found serverSession emptyBroadcaster "missing" 0 rfl

/-- Claim C7: a play for an existing stream emits, in order, the
NetStream.Play.Start status, the cached AVC sequence header as a video
message at timestamp 0 when present, the cached AAC sequence header as an
audio message at timestamp 0 when present, and only then registers the
session as a subscriber of the key; the session is marked player and the
registration succeeds. -/
theorem onPlay_stream_found (s : SessionState) (b : BroadcasterState)
    (key : String) (t : Nat) (h : StreamExists key b = true) :
    (onPlay s b key t).1.output =
      s.output
        ++ [Act.statusMessage "status" "NetStream.Play.Start"
              "Playing stream for live_user_<x>"]
        ++ (match GetAvcSequenceHeaderForPublisher key b with
            | some p => [Act.videoMsg p 0]
            | none => [])
        ++ (match GetAacSequenceHeaderForPublisher key b with
            | some p => [Act.audioMsg p 0]
            | none => [])
        ++ [Act.registerSubscriberAct key s.id]
    ∧ (onPlay s b key t).1.isPlayer = true
    ∧ (onPlay s b key t).1.active = s.active
    ∧ ∃ nb, RegisterSubscriber key s.id b = Except.ok nb
        ∧ (onPlay s b key t).2 = nb := by
  obtain ⟨e, he⟩ : ∃ e, List.lookup key b.publishers = some e := by
    unfold StreamExists at h
    cases hx : List.lookup key b.publishers with
    | none => rw [hx] at h; simp at h
    | some e => exact ⟨e, rfl⟩
  unfold onPlay sendStatusMessage RegisterSubscriber
  rcases hA : GetAvcSequenceHeaderForPublisher key b with _ | p <;>
    rcases hB : GetAacSequenceHeaderForPublisher key b with _ | q <;>
      simp [h, hA, hB, he, List.append_assoc]

/-- Witness for the C7 theorem: playing "abc" with both sequence headers
cached. -/
theorem onPlay_stream_found_witness :
    (onPlay serverSession playBroadcaster "abc" 0).1.output =
      serverSession.output
        ++ [Act.statusMessage "status" "NetStream.Play.Start"
              "Playing stream for live_user_<x>"]
        ++ [Act.videoMsg [23, 0] 0]
        ++ [Act.audioMsg [174, 0] 0]
        ++ [Act.registerSubscriberAct "abc" serverSession.id]
    ∧ (onPlay serverSession playBroadcaster "abc" 0).1.isPlayer = true
    ∧ (onPlay serverSession playBroadcaster "abc" 0).1.active = serverSession.active
    ∧ ∃ nb, RegisterSubscriber "abc" serverSession.id playBroadcaster = Except.ok nb
        ∧ (onPlay serverSession playBroadcaster "abc" 0).2 = nb :=
  onPlay_stream_found serverSession playBroadcaster "abc" 0 rfl

/-- Claim C10: on a server-side session (no client callback, not a client
session), onAudioMessage with AAC format and onVideoMessage with the H.264
codec read payload[1] before caching or broadcasting; the access panics
(result none) exactly when the payload is shorter than 2 bytes, and with 2
or more bytes it is in bounds. -/
theorem onAudioVideoMessage_payload_index (s : SessionState) (ft : FrameType)
    (payload : List Nat) (ts : Nat)
    (ha : s.hasAudioCallback = false) (hv : s.hasVideoCallback = false)
    (hc : s.isClient = false) :
    ((onAudioMessage s AudioFormat.AAC payload ts).isNone ↔ payload.length < 2)
    ∧ ((onVideoMessage s ft VideoCodec.H264 payload ts).isNone ↔ payload.length < 2) := by
  unfold onAudioMessage onVideoMessage
  rcases payload with _ | ⟨a, _ | ⟨b2, l⟩⟩ <;>
    simp [ha, hv, hc] <;> split_ifs <;> simp

/-- Witness for the C10 theorem: a 1-byte AAC audio payload and a 1-byte
H.264 video payload both panic. -/
theorem onAudioVideoMessage_payload_index_witness :
    ((onAudioMessage serverSession AudioFormat.AAC [175] 0).isNone ↔
      ([175] : List Nat).length < 2)
    ∧ ((onVideoMessage serverSession FrameType.keyFrame VideoCodec.H264 [175] 0).isNone ↔
      ([175] : List Nat).length < 2) :=
  onAudioVideoMessage_payload_index serverSession FrameType.keyFrame [175] 0 rfl rfl rfl

end RTMP
